import Mathlib

/-
Verification of the adaptive concurrent task pipeline of the gmail-agent
repository. Definitions are shallow embeddings of the TypeScript source:
  - src/utils/retry.ts          (AdaptiveRateLimiter, withRetry, calculateBackoff)
  - src/database/connection.ts  (sync queue repository functions)
  - src/ai/parallel-classifier.ts (classifyEmail, classifyEmailsParallel)
TypeScript numbers holding concurrency levels, counters and timestamps are
modelled as Int; millisecond durations and confidences are modelled as Rat.
-/

namespace GmailAgent

/-! ## AdaptiveRateLimiter (src/utils/retry.ts, lines 212-279) -/

/-- State of the AdaptiveRateLimiter class: the five mutable fields plus the
configured successThreshold. All TypeScript number fields are modelled as Int. -/
structure AdaptiveRateLimiter where
  currentConcurrency : Int
  minConcurrency : Int
  maxConcurrency : Int
  consecutiveSuccesses : Int
  consecutiveErrors : Int
  successThreshold : Int
deriving DecidableEq, Repr

namespace AdaptiveRateLimiter

/-- Constructor of AdaptiveRateLimiter. Defaults: maxConcurrency 50,
minConcurrency 5, initialConcurrency = maxConcurrency, successThreshold 20.
The four option fields mirror the optional constructor arguments. -/
def make (initialConcurrency minConcurrency maxConcurrency successThreshold :
    Option Int) : AdaptiveRateLimiter :=
  let maxC := maxConcurrency.getD 50
  { currentConcurrency := initialConcurrency.getD maxC
    minConcurrency := minConcurrency.getD 5
    maxConcurrency := maxC
    consecutiveSuccesses := 0
    consecutiveErrors := 0
    successThreshold := successThreshold.getD 20 }

/-- Method getConcurrency. -/
def getConcurrency (s : AdaptiveRateLimiter) : Int :=
  s.currentConcurrency

/-- Method recordSuccess: increment the success streak, zero the error streak;
once the success streak reaches successThreshold while below max, raise
currentConcurrency by 5 capped at max and zero the success streak. -/
def recordSuccess (s : AdaptiveRateLimiter) : AdaptiveRateLimiter :=
  let s1 := { s with
    consecutiveSuccesses := s.consecutiveSuccesses + 1
    consecutiveErrors := 0 }
  if s1.consecutiveSuccesses ≥ s1.successThreshold ∧
      s1.currentConcurrency < s1.maxConcurrency then
    { s1 with
      currentConcurrency := min (s1.currentConcurrency + 5) s1.maxConcurrency
      consecutiveSuccesses := 0 }
  else s1

/-- Method recordError: increment the error streak, zero the success streak;
on a rate limit, halve currentConcurrency (Math.floor) clamped to min;
otherwise, when the error streak has reached 3, lower currentConcurrency by 5
clamped to min. The error streak is not reset by the cutback. -/
def recordError (s : AdaptiveRateLimiter) (isRateLimit : Bool) :
    AdaptiveRateLimiter :=
  let s1 := { s with
    consecutiveErrors := s.consecutiveErrors + 1
    consecutiveSuccesses := 0 }
  if isRateLimit then
    { s1 with
      currentConcurrency := max (Int.fdiv s1.currentConcurrency 2)
        s1.minConcurrency }
  else if s1.consecutiveErrors ≥ 3 then
    { s1 with
      currentConcurrency := max (s1.currentConcurrency - 5) s1.minConcurrency }
  else s1

/-- Method reset: restore currentConcurrency to maxConcurrency and zero both
streak counters. -/
def reset (s : AdaptiveRateLimiter) : AdaptiveRateLimiter :=
  { s with
    currentConcurrency := s.maxConcurrency
    consecutiveSuccesses := 0
    consecutiveErrors := 0 }

end AdaptiveRateLimiter

/-- One call against the limiter interface. -/
inductive LimiterEvent
  | success
  | error (isRateLimit : Bool)
  | reset
deriving DecidableEq, Repr

/-- Apply one limiter call. -/
def AdaptiveRateLimiter.step (s : AdaptiveRateLimiter) :
    LimiterEvent → AdaptiveRateLimiter
  | LimiterEvent.success => s.recordSuccess
  | LimiterEvent.error b => s.recordError b
  | LimiterEvent.reset => s.reset

/-- Apply a finite sequence of limiter calls, first element first. -/
def AdaptiveRateLimiter.run (s : AdaptiveRateLimiter)
    (es : List LimiterEvent) : AdaptiveRateLimiter :=
  es.foldl AdaptiveRateLimiter.step s

/-- Invariant of the limiter state used for the bounds result: the configured
minimum is nonnegative and currentConcurrency lies between the bounds. -/
def LimiterInv (s : AdaptiveRateLimiter) : Prop :=
  0 ≤ s.minConcurrency ∧
  s.minConcurrency ≤ s.currentConcurrency ∧
  s.currentConcurrency ≤ s.maxConcurrency

/-! ## withRetry (src/utils/retry.ts, lines 149-193)

The async operation is modelled as a function from the attempt number
(1-based) to the outcome of that invocation; errors are opaque values of a
type parameter. The loop of withRetry is embedded as a recursion whose
argument is the current attempt number: on a failure the loop continues
exactly when the number of attempts made so far is at most maxRetries and
the error is retryable, mirroring
  const canRetry = attempts <= maxRetries && isRetryable(error). -/

/-- One step of the withRetry loop, entered at the given attempt number.
Returns the total number of invocations made together with the final
outcome: the successful value, or the error thrown by the last attempt.
The source loop is while(true); it terminates because canRetry requires
attempts ≤ maxRetries. That bound is made structural here through the fuel
argument: withRetry passes fuel = maxRetries, which the canRetry guard never
exhausts (an entry with attempt ≤ maxRetries always has fuel ≥ 1 under the
invariant maxRetries + 1 - attempt ≤ fuel, maintained by the recursion), so
the fuel = 0 fallback is unreachable from withRetry. -/
def withRetryGo {ε α : Type} (fn : Nat → Except ε α) (isRetryable : ε → Bool)
    (maxRetries : Nat) : Nat → Nat → Nat × Except ε α
  | fuel, attempt =>
    match fn attempt with
    | Except.ok v => (attempt, Except.ok v)
    | Except.error e =>
      if attempt ≤ maxRetries ∧ isRetryable e = true then
        match fuel with
        | 0 => (attempt, Except.error e)
        | fuel' + 1 => withRetryGo fn isRetryable maxRetries fuel' (attempt + 1)
      else
        (attempt, Except.error e)

/-- Function withRetry: run the operation starting at attempt 1. -/
def withRetry {ε α : Type} (fn : Nat → Except ε α) (isRetryable : ε → Bool)
    (maxRetries : Nat) : Nat × Except ε α :=
  withRetryGo fn isRetryable maxRetries maxRetries 1

/-! ## calculateBackoff (src/utils/retry.ts, lines 109-120)

Millisecond quantities are modelled as rationals. The call to Math.random
is modelled by a parameter r, the draw in the unit interval. -/

/-- The jitter-free component of the backoff delay: the exponential delay
initialMs * multiplier ^ (attempt - 1) capped at maxMs. -/
def cappedBackoff (attempt : Nat) (initialMs maxMs multiplier : ℚ) : ℚ :=
  min (initialMs * multiplier ^ (attempt - 1)) maxMs

/-- Function calculateBackoff: capped exponential delay plus jitter, where
the jitter is r * jitterMs for a random draw r in the unit interval. -/
def calculateBackoff (attempt : Nat) (initialMs maxMs multiplier jitterMs r :
    ℚ) : ℚ :=
  cappedBackoff attempt initialMs maxMs multiplier + r * jitterMs

/-! ## Sync queue repository (src/database/connection.ts, lines 864-1051)

The sync_queue table is modelled as a list of rows. Per the drizzle schema,
the table carries a UNIQUE("gmailId","userId") constraint; the generated
primary key and the syncedAt column play no role in the verified claims and
are omitted. Timestamps are epoch milliseconds modelled as Int. -/

/-- Status column of a sync_queue row: pending, syncing, synced, failed. -/
inductive SyncStatus
  | pending
  | syncing
  | synced
  | failed
deriving DecidableEq, Repr

/-- One row of the sync_queue table. -/
structure SyncQueueRow where
  gmailId : String
  userId : String
  accountId : String
  status : SyncStatus
  retryCount : Nat
  lastError : Option String
  createdAt : Int
  updatedAt : Int
deriving DecidableEq, Repr

/-- Row matches the (gmailId, userId) pair, i.e. the WHERE clause
and(eq(syncQueue.gmailId, gmailId), eq(syncQueue.userId, userId)). -/
def rowMatches (gmailId userId : String) (r : SyncQueueRow) : Bool :=
  r.gmailId == gmailId && r.userId == userId

/-- Number of rows for the (gmailId, userId) pair. -/
def countPair (q : List SyncQueueRow) (gmailId userId : String) : Nat :=
  q.countP (rowMatches gmailId userId)

/-- Insert one pending row unless a row with the same (gmailId, userId)
already exists; the ON CONFLICT DO NOTHING path contributes 0 to the count
of inserted rows. -/
def insertPendingRow (q : List SyncQueueRow) (userId accountId gmailId :
    String) (now : Int) : List SyncQueueRow × Nat :=
  if q.any (rowMatches gmailId userId) then
    (q, 0)
  else
    (q ++ [{ gmailId := gmailId, userId := userId, accountId := accountId,
             status := SyncStatus.pending, retryCount := 0, lastError := none,
             createdAt := now, updatedAt := now }], 1)

/-- Function addToSyncQueue: insert the given ids as pending rows with
ON CONFLICT DO NOTHING, returning the number of rows actually inserted.
The source issues the inserts in batches of 100, which has the same
per-row conflict semantics as inserting one row at a time. -/
def addToSyncQueue (q : List SyncQueueRow) (userId accountId : String)
    (gmailIds : List String) (now : Int) : List SyncQueueRow × Nat :=
  gmailIds.foldl
    (fun acc gid =>
      let r := insertPendingRow acc.1 userId accountId gid now
      (r.1, acc.2 + r.2))
    (q, 0)

/-- The findFirst query of markSyncItemFailed. -/
def findRow (q : List SyncQueueRow) (gmailId userId : String) :
    Option SyncQueueRow :=
  q.find? (rowMatches gmailId userId)

/-- Function markSyncItemFailed: look up the row for (gmailId, userId); when
absent return (queue unchanged, deleted = false, retryCount = 0). Otherwise
increment the retry count; at 5 delete the row and report deleted = true;
below 5 record the error, set the row back to pending and stamp updatedAt. -/
def markSyncItemFailed (q : List SyncQueueRow) (gmailId userId error : String)
    (now : Int) : List SyncQueueRow × Bool × Nat :=
  match findRow q gmailId userId with
  | none => (q, false, 0)
  | some item =>
    let newRetryCount := item.retryCount + 1
    if newRetryCount ≥ 5 then
      (q.filter (fun r => !rowMatches gmailId userId r), true, newRetryCount)
    else
      (q.map (fun r =>
        if rowMatches gmailId userId r then
          { r with lastError := some error, retryCount := newRetryCount,
                   status := SyncStatus.pending, updatedAt := now }
        else r),
       false, newRetryCount)

/-- The WHERE clause of resetStuckSyncingItems: rows of the user that are in
status syncing with updatedAt strictly older than the threshold. -/
def stuckRow (userId : String) (threshold : Int) (r : SyncQueueRow) : Bool :=
  r.userId == userId && r.status == SyncStatus.syncing &&
    r.updatedAt < threshold

/-- Function resetStuckSyncingItems: set rows of the user that have been in
status syncing since before now minus five minutes back to pending, stamping
updatedAt; return how many rows were updated. -/
def resetStuckSyncingItems (q : List SyncQueueRow) (userId : String)
    (now : Int) : List SyncQueueRow × Nat :=
  let fiveMinutesAgo := now - 5 * 60 * 1000
  (q.map (fun r =>
      if stuckRow userId fiveMinutesAgo r then
        { r with status := SyncStatus.pending, updatedAt := now }
      else r),
   q.countP (stuckRow userId fiveMinutesAgo))

/-! ## Parallel classifier (src/ai/parallel-classifier.ts)

The remote classification service is modelled as a function from the attempt
number to the outcome of that call: either an error (network failure, rate
limit, or the 30 second timeout race, all of which surface as thrown errors)
or a structured reply carrying classifierId and confidence. Confidence is
modelled as a rational. -/

/-- Input item of the classification pipeline (interface EmailInput). The
sender field is named from in the source, which is a reserved word here. -/
structure EmailInput where
  id : String
  subject : String
  from_ : String
  snippet : String
  body : String
  date : Int
deriving DecidableEq, Repr

/-- A classifier row as selected from the classifier table. -/
structure Classifier where
  id : String
  name : String
  description : String
  labelName : String
  enabled : Bool
  priority : Int
deriving DecidableEq, Repr

/-- The object returned by the classification service (schema
ClassificationSchema): a nullable classifierId and a confidence score. -/
structure ClassificationReply where
  classifierId : Option String
  confidence : ℚ
deriving DecidableEq, Repr

/-- Element of the result list of classifyEmailsParallel (interface
ClassificationResult). -/
structure ClassificationResult where
  emailId : String
  classifierId : Option String
  confidence : ℚ
deriving DecidableEq, Repr

/-- Validation of a service reply against the supplied classifier ids
(src/ai/parallel-classifier.ts, lines 192-200):
  validClassifierId = classifierId and classifierIds.has(classifierId)
                        ? classifierId : null
  validConfidence   = validClassifierId
                        ? Math.min(1, Math.max(0, confidence)) : 0.
A null classifierId, and also the empty string (falsy in the source), map
to null; so does any id outside the supplied set. -/
def validateClassification (classifierIds : List String)
    (reply : ClassificationReply) : Option String × ℚ :=
  let validClassifierId : Option String :=
    match reply.classifierId with
    | none => none
    | some cid =>
      if cid ≠ "" ∧ cid ∈ classifierIds then some cid else none
  let validConfidence : ℚ :=
    match validClassifierId with
    | some _ => min 1 (max 0 reply.confidence)
    | none => 0
  (validClassifierId, validConfidence)

/-- Function classifyEmail, given the net outcome of its guarded service
call: on success, validate and clamp; on any caught error, recover locally
with a null match and confidence 0 (lines 222-237). -/
def classifyEmail (classifierIds : List String) (emailId : String)
    (outcome : Except String ClassificationReply) : ClassificationResult :=
  match outcome with
  | Except.error _ =>
    { emailId := emailId, classifierId := none, confidence := 0 }
  | Except.ok reply =>
    let v := validateClassification classifierIds reply
    { emailId := emailId, classifierId := v.1, confidence := v.2 }

/-- Function classifyEmail including its retry wrapper: the service call is
run through withRetry with maxRetries 3; svc gives the outcome of each
individual attempt and retryable is the retryability predicate. -/
def classifyEmailRun (classifierIds : List String) (emailId : String)
    (svc : Nat → Except String ClassificationReply)
    (retryable : String → Bool) : ClassificationResult :=
  classifyEmail classifierIds emailId (withRetry svc retryable 3).2

/-- Function classifyEmailsParallel. Workers complete in an arbitrary
interleaving; the driver pushes one result per completed worker, so the
result list is the per-item results in completion order. The completion
order is modelled as the list of input indices in the order the workers
finished, which the driver guarantees is a permutation of all indices.
An empty email list or an empty classifier list returns []. -/
def classifyEmailsParallel (emails : List EmailInput)
    (classifiers : List Classifier)
    (svc : String → Nat → Except String ClassificationReply)
    (retryable : String → Bool) (order : List Nat) :
    List ClassificationResult :=
  if emails.isEmpty || classifiers.isEmpty then []
  else
    order.filterMap (fun i =>
      (emails.get? i).map (fun e =>
        classifyEmailRun (classifiers.map (fun c => c.id)) e.id (svc e.id)
          retryable))

/-! ## AdaptiveRateLimiter invariant theorems -/

theorem limiterInv_step (s : AdaptiveRateLimiter) (e : LimiterEvent)
    (h : LimiterInv s) : LimiterInv (s.step e) := by
  obtain ⟨h0, h1, h2⟩ := h
  have hf : Int.fdiv s.currentConcurrency 2 = s.currentConcurrency / 2 :=
    Int.fdiv_eq_ediv _ (by norm_num)
  cases e with
  | success =>
    simp only [AdaptiveRateLimiter.step, AdaptiveRateLimiter.recordSuccess]
    split <;> refine ⟨h0, ?_, ?_⟩ <;> simp_all <;> omega
  | error b =>
    simp only [AdaptiveRateLimiter.step, AdaptiveRateLimiter.recordError]
    split
    · refine ⟨h0, ?_, ?_⟩ <;> simp_all <;> omega
    · split <;> refine ⟨h0, ?_, ?_⟩ <;> simp_all <;> omega
  | reset =>
    refine ⟨h0, ?_, ?_⟩ <;>
      simp only [AdaptiveRateLimiter.step, AdaptiveRateLimiter.reset] <;> omega

theorem limiterInv_run (s : AdaptiveRateLimiter) (es : List LimiterEvent)
    (h : LimiterInv s) : LimiterInv (s.run es) := by
  induction es generalizing s with
  | nil => exact h
  | cons e es ih => exact ih (s.step e) (limiterInv_step s e h)

theorem limiter_step_fixed (s : AdaptiveRateLimiter) (e : LimiterEvent) :
    (s.step e).minConcurrency = s.minConcurrency ∧
    (s.step e).maxConcurrency = s.maxConcurrency := by
  cases e with
  | success =>
    simp only [AdaptiveRateLimiter.step, AdaptiveRateLimiter.recordSuccess]
    split_ifs <;> exact ⟨rfl, rfl⟩
  | error b =>
    simp only [AdaptiveRateLimiter.step, AdaptiveRateLimiter.recordError]
    split_ifs <;> exact ⟨rfl, rfl⟩
  | reset => exact ⟨rfl, rfl⟩

theorem limiter_run_fixed (s : AdaptiveRateLimiter) (es : List LimiterEvent) :
    (s.run es).minConcurrency = s.minConcurrency ∧
    (s.run es).maxConcurrency = s.maxConcurrency := by
  induction es generalizing s with
  | nil => exact ⟨rfl, rfl⟩
  | cons e es ih =>
    have h1 : s.run (e :: es) = (s.step e).run es := rfl
    rw [h1, (ih (s.step e)).1, (ih (s.step e)).2,
      (limiter_step_fixed s e).1, (limiter_step_fixed s e).2]
    exact ⟨rfl, rfl⟩

/-- Claim C1 fails as stated: with minConcurrency = -10, initialConcurrency
= -8 and maxConcurrency = -6 the construction constraint min ≤ initial ≤ max
holds, yet a single recordError(true) call sets the concurrency to
Math.max(Math.floor(-8 / 2), -10) = -4, which exceeds maxConcurrency. -/
theorem C1_negative_bounds_counterexample :
    ((-10 : Int) ≤ -8 ∧ (-8 : Int) ≤ -6) ∧
    ((AdaptiveRateLimiter.make (some (-8)) (some (-10)) (some (-6))
        none).run [LimiterEvent.error true]).getConcurrency = -4 ∧
    ¬((AdaptiveRateLimiter.make (some (-8)) (some (-10)) (some (-6))
        none).run [LimiterEvent.error true]).getConcurrency ≤
      (AdaptiveRateLimiter.make (some (-8)) (some (-10)) (some (-6))
        none).maxConcurrency := by
  decide

/-- Claim C1 (amended): for every AdaptiveRateLimiter constructed with
0 ≤ minConcurrency ≤ initialConcurrency ≤ maxConcurrency (the defaults,
where min = 5 and initial = max = 50, satisfy this), getConcurrency stays
within [minConcurrency, maxConcurrency] after every finite sequence of
recordSuccess, recordError and reset calls. -/
theorem C1_concurrency_stays_in_bounds
    (initialConcurrency minConcurrency maxConcurrency successThreshold :
      Option Int) (es : List LimiterEvent)
    (h0 : 0 ≤ (AdaptiveRateLimiter.make initialConcurrency minConcurrency
      maxConcurrency successThreshold).minConcurrency)
    (h1 : (AdaptiveRateLimiter.make initialConcurrency minConcurrency
      maxConcurrency successThreshold).minConcurrency ≤
      (AdaptiveRateLimiter.make initialConcurrency minConcurrency
      maxConcurrency successThreshold).currentConcurrency)
    (h2 : (AdaptiveRateLimiter.make initialConcurrency minConcurrency
      maxConcurrency successThreshold).currentConcurrency ≤
      (AdaptiveRateLimiter.make initialConcurrency minConcurrency
      maxConcurrency successThreshold).maxConcurrency) :
    (AdaptiveRateLimiter.make initialConcurrency minConcurrency
      maxConcurrency successThreshold).minConcurrency ≤
      ((AdaptiveRateLimiter.make initialConcurrency minConcurrency
        maxConcurrency successThreshold).run es).getConcurrency ∧
    ((AdaptiveRateLimiter.make initialConcurrency minConcurrency
      maxConcurrency successThreshold).run es).getConcurrency ≤
      (AdaptiveRateLimiter.make initialConcurrency minConcurrency
        maxConcurrency successThreshold).maxConcurrency := by
  have hinv := limiterInv_run
    (AdaptiveRateLimiter.make initialConcurrency minConcurrency
      maxConcurrency successThreshold) es ⟨h0, h1, h2⟩
  have hfix := limiter_run_fixed
    (AdaptiveRateLimiter.make initialConcurrency minConcurrency
      maxConcurrency successThreshold) es
  exact ⟨hfix.1 ▸ hinv.2.1, hfix.2 ▸ hinv.2.2⟩

/-- Witness for C1: the default construction run through a rate limit
error, a success and a reset stays within [5, 50]. -/
theorem C1_concurrency_stays_in_bounds_witness :
    (AdaptiveRateLimiter.make none none none none).minConcurrency ≤
      ((AdaptiveRateLimiter.make none none none none).run
        [LimiterEvent.error true, LimiterEvent.success,
         LimiterEvent.reset]).getConcurrency ∧
    ((AdaptiveRateLimiter.make none none none none).run
        [LimiterEvent.error true, LimiterEvent.success,
         LimiterEvent.reset]).getConcurrency ≤
      (AdaptiveRateLimiter.make none none none none).maxConcurrency :=
  C1_concurrency_stays_in_bounds none none none none
    [LimiterEvent.error true, LimiterEvent.success, LimiterEvent.reset]
    (by decide) (by decide) (by decide)

/-- Claim C2 fails as stated on its final clause: starting from
initialConcurrency 30 with minConcurrency 5, three consecutive
recordError(false) calls lower the concurrency to 25, but the error streak
is then 3 rather than 0, and the fourth consecutive recordError(false) call
lowers the concurrency again, to 20. -/
theorem C2_error_streak_counterexample :
    ((AdaptiveRateLimiter.make (some 30) (some 5) none none).run
      (List.replicate 3 (LimiterEvent.error false))).getConcurrency = 25 ∧
    ((AdaptiveRateLimiter.make (some 30) (some 5) none none).run
      (List.replicate 3 (LimiterEvent.error false))).consecutiveErrors = 3 ∧
    ((AdaptiveRateLimiter.make (some 30) (some 5) none none).run
      (List.replicate 4 (LimiterEvent.error false))).getConcurrency = 20 := by
  decide

/-- Claim C2 (amended): recordError(isRateLimit) always zeroes
consecutiveSuccesses and increments consecutiveErrors; when isRateLimit is
true it sets currentConcurrency to max(floor(C / 2), min) where C is the
prior value; when isRateLimit is false it reduces currentConcurrency by 5
(clamped to min) exactly when the incremented error streak has reached 3,
and the error streak is not reset, so the immediately following (4th)
consecutive non-rate-limit error reduces concurrency again. -/
theorem C2_recordError_spec (s : AdaptiveRateLimiter) (b : Bool) :
    (s.recordError b).consecutiveSuccesses = 0 ∧
    (s.recordError b).consecutiveErrors = s.consecutiveErrors + 1 ∧
    (s.recordError b).currentConcurrency =
      (if b then
        max (Int.fdiv s.currentConcurrency 2) s.minConcurrency
      else if s.consecutiveErrors + 1 ≥ 3 then
        max (s.currentConcurrency - 5) s.minConcurrency
      else
        s.currentConcurrency) := by
  cases b <;> simp [AdaptiveRateLimiter.recordError] <;>
    split_ifs <;> simp_all

/-! ## withRetry theorems -/

theorem withRetryGo_spec {ε α : Type} (fn : Nat → Except ε α) (p : ε → Bool)
    (R : Nat) : ∀ fuel attempt, R + 1 - attempt ≤ fuel → attempt ≤ R + 1 →
    (withRetryGo fn p R fuel attempt).1 ≤ R + 1 ∧
    (withRetryGo fn p R fuel attempt).2 =
      fn (withRetryGo fn p R fuel attempt).1 ∧
    (∀ e, (withRetryGo fn p R fuel attempt).2 = Except.error e →
      R < (withRetryGo fn p R fuel attempt).1 ∨ p e = false) := by
  intro fuel
  induction fuel with
  | zero =>
    intro attempt hf ha
    have haR : attempt = R + 1 := by omega
    subst haR
    rw [withRetryGo]
    cases hfn : fn (R + 1) with
    | ok v => simp [hfn]
    | error e =>
      have hcond : ¬(R + 1 ≤ R ∧ p e = true) := by
        rintro ⟨h1, _⟩
        omega
      simp only [hfn, hcond, if_false]
      refine ⟨by omega, trivial, ?_⟩
      intro e2 he2
      left
      omega
  | succ fuel ih =>
    intro attempt hf ha
    rw [withRetryGo]
    cases hfn : fn attempt with
    | ok v => simp [hfn, ha]
    | error e =>
      by_cases hcond : attempt ≤ R ∧ p e = true
      · simp only [hfn, hcond, if_true]
        exact ih (attempt + 1) (by omega) (by omega)
      · simp only [hfn, hcond, if_false]
        refine ⟨ha, trivial, ?_⟩
        intro e2 he2
        rcases not_and_or.mp hcond with h | h
        · left
          omega
        · right
          injection he2 with he2
          subst he2
          simpa using h

/-- Claim C3: for every operation and every maxRetries = R, withRetry makes
at most R + 1 invocations of the operation; the returned outcome is exactly
the outcome of the final invocation (so a propagated error is the last
attempt error value, unchanged); and an error is propagated only when the
stop condition held, that is the number of attempts exceeds R or the error
is not retryable, so no further invocation occurs after such an error. -/
theorem C3_withRetry_bound_and_error_propagation {ε α : Type}
    (fn : Nat → Except ε α) (isRetryable : ε → Bool) (maxRetries : Nat) :
    (withRetry fn isRetryable maxRetries).1 ≤ maxRetries + 1 ∧
    (withRetry fn isRetryable maxRetries).2 =
      fn (withRetry fn isRetryable maxRetries).1 ∧
    (∀ e, (withRetry fn isRetryable maxRetries).2 = Except.error e →
      maxRetries < (withRetry fn isRetryable maxRetries).1 ∨
        isRetryable e = false) :=
  withRetryGo_spec fn isRetryable maxRetries maxRetries 1 (by omega)
    (by omega)

/-- Witness for C3: a never-retryable operation failing with error 7 under
maxRetries = 2 is invoked once and its error satisfies the stop condition. -/
theorem C3_withRetry_witness :
    (withRetry (fun _ => (Except.error 7 : Except Nat Nat))
      (fun _ => false) 2).1 ≤ 3 ∧
    (2 < (withRetry (fun _ => (Except.error 7 : Except Nat Nat))
      (fun _ => false) 2).1 ∨ (fun _ : Nat => false) 7 = false) :=
  ⟨(C3_withRetry_bound_and_error_propagation
      (fun _ => (Except.error 7 : Except Nat Nat)) (fun _ => false) 2).1,
   (C3_withRetry_bound_and_error_propagation
      (fun _ => (Except.error 7 : Except Nat Nat)) (fun _ => false) 2).2.2 7
     (by rfl)⟩

/-! ## calculateBackoff theorems -/

/-- Claim C4: for every attempt n ≥ 1 and every configuration with
initialBackoff ≥ 0, maxBackoff ≥ 0, multiplier ≥ 1 and jitter ≥ 0, and every
random draw r in the unit interval, the backoff delay equals
min(initialBackoff * multiplier ^ (n - 1), maxBackoff) plus the jitter draw
r * jitterMs; the draw is nonnegative and below jitterMs whenever jitterMs
is positive; and the jitter-free component is non-decreasing in n and never
exceeds maxBackoff. -/
theorem C4_backoff_monotone_capped (n : Nat)
    (initialMs maxMs multiplier jitterMs r : ℚ) (hn : 1 ≤ n)
    (hinit : 0 ≤ initialMs) (hmax : 0 ≤ maxMs) (hmult : 1 ≤ multiplier)
    (hjit : 0 ≤ jitterMs) (hr0 : 0 ≤ r) (hr1 : r < 1) :
    calculateBackoff n initialMs maxMs multiplier jitterMs r =
      min (initialMs * multiplier ^ (n - 1)) maxMs + r * jitterMs ∧
    0 ≤ r * jitterMs ∧ (0 < jitterMs → r * jitterMs < jitterMs) ∧
    cappedBackoff n initialMs maxMs multiplier ≤
      cappedBackoff (n + 1) initialMs maxMs multiplier ∧
    cappedBackoff n initialMs maxMs multiplier ≤ maxMs := by
  refine ⟨rfl, mul_nonneg hr0 hjit, ?_, ?_, min_le_right _ _⟩
  · intro hpos
    calc r * jitterMs < 1 * jitterMs := mul_lt_mul_of_pos_right hr1 hpos
      _ = jitterMs := one_mul _
  · apply min_le_min _ le_rfl
    apply mul_le_mul_of_nonneg_left _ hinit
    apply pow_le_pow_right₀ hmult
    omega

/-- Witness for C4: attempt 1 with the source defaults (initial 1000 ms,
cap 30000 ms, multiplier 2, jitter 500 ms) and draw 1/2. -/
theorem C4_backoff_monotone_capped_witness :
    calculateBackoff 1 1000 30000 2 500 (1 / 2) =
      min ((1000 : ℚ) * 2 ^ (1 - 1)) 30000 + (1 / 2) * 500 ∧
    (0 : ℚ) ≤ (1 / 2) * 500 ∧
    ((0 : ℚ) < 500 → (1 / 2 : ℚ) * 500 < 500) ∧
    cappedBackoff 1 1000 30000 2 ≤ cappedBackoff 2 1000 30000 2 ∧
    cappedBackoff 1 1000 30000 2 ≤ 30000 :=
  C4_backoff_monotone_capped 1 1000 30000 2 500 (1 / 2) (by norm_num)
    (by norm_num) (by norm_num) (by norm_num) (by norm_num) (by norm_num)
    (by norm_num)

/-! ## Sync queue theorems -/

/-- Claim C5: enqueue is idempotent per owner. When the queue holds exactly
one row for (gmailId, userId), enqueueing that id again for the same owner
leaves the queue unchanged, contributes 0 to the returned count, and the
queue still holds exactly one row for the pair. -/
theorem C5_enqueue_idempotent (q : List SyncQueueRow)
    (userId accountId gmailId : String) (now : Int)
    (h : countPair q gmailId userId = 1) :
    addToSyncQueue q userId accountId [gmailId] now = (q, 0) ∧
    countPair (addToSyncQueue q userId accountId [gmailId] now).1 gmailId
      userId = 1 := by
  have hpos : 0 < q.countP (rowMatches gmailId userId) := by
    unfold countPair at h
    omega
  have hex : q.any (rowMatches gmailId userId) = true := by
    rcases List.countP_pos_iff.mp hpos with ⟨a, ha, hpa⟩
    exact List.any_eq_true.mpr ⟨a, ha, hpa⟩
  have hins : insertPendingRow q userId accountId gmailId now = (q, 0) := by
    unfold insertPendingRow
    rw [if_pos hex]
  have heq : addToSyncQueue q userId accountId [gmailId] now = (q, 0) := by
    simp [addToSyncQueue, hins]
  exact ⟨heq, by rw [heq]; exact h⟩

/-- Witness for C5: a queue holding the pair (g1, u1) once is unchanged by
enqueueing g1 again for u1. -/
theorem C5_enqueue_idempotent_witness :
    addToSyncQueue
      [{ gmailId := "g1", userId := "u1", accountId := "a1",
         status := SyncStatus.pending, retryCount := 0, lastError := none,
         createdAt := 0, updatedAt := 0 }] "u1" "a1" ["g1"] 5 =
      ([{ gmailId := "g1", userId := "u1", accountId := "a1",
          status := SyncStatus.pending, retryCount := 0, lastError := none,
          createdAt := 0, updatedAt := 0 }], 0) ∧
    countPair
      (addToSyncQueue
        [{ gmailId := "g1", userId := "u1", accountId := "a1",
           status := SyncStatus.pending, retryCount := 0, lastError := none,
           createdAt := 0, updatedAt := 0 }] "u1" "a1" ["g1"] 5).1
      "g1" "u1" = 1 :=
  C5_enqueue_idempotent
    [{ gmailId := "g1", userId := "u1", accountId := "a1",
       status := SyncStatus.pending, retryCount := 0, lastError := none,
       createdAt := 0, updatedAt := 0 }] "u1" "a1" "g1" 5 (by decide)

/-- Claim C6: markSyncItemFailed increments the retry count of the found
row; when the new count reaches 5 the row is deleted and deleted = true is
returned, so the item is absent from the queue; otherwise the row returns to
pending with the error recorded and the new retry count, and deleted = false
is returned. -/
theorem C6_markFailed_retry_then_drop (q : List SyncQueueRow)
    (gmailId userId error : String) (now : Int) (r : SyncQueueRow)
    (hfind : findRow q gmailId userId = some r) :
    (markSyncItemFailed q gmailId userId error now).2.2 = r.retryCount + 1 ∧
    (if r.retryCount + 1 ≥ 5 then
      (markSyncItemFailed q gmailId userId error now).2.1 = true ∧
      findRow (markSyncItemFailed q gmailId userId error now).1 gmailId
        userId = none
    else
      (markSyncItemFailed q gmailId userId error now).2.1 = false ∧
      findRow (markSyncItemFailed q gmailId userId error now).1 gmailId
        userId = some { r with lastError := some error,
                               retryCount := r.retryCount + 1,
                               status := SyncStatus.pending,
                               updatedAt := now }) := by
  have hmatch : rowMatches gmailId userId r = true := List.find?_some hfind
  have hupd : (fun x => rowMatches gmailId userId
      (if rowMatches gmailId userId x then
        { x with lastError := some error, retryCount := r.retryCount + 1,
                 status := SyncStatus.pending, updatedAt := now }
      else x)) = rowMatches gmailId userId := by
    funext x
    by_cases hx : rowMatches gmailId userId x = true
    · simp only [hx, if_true]
      simp only [rowMatches] at hx ⊢
      exact hx
    · simp only [Bool.not_eq_true] at hx
      simp [hx]
  unfold markSyncItemFailed
  rw [show findRow q gmailId userId = some r from hfind]
  by_cases hc : r.retryCount + 1 ≥ 5
  · simp only [hc, if_true, if_pos hc]
    refine ⟨trivial, trivial, ?_⟩
    rw [findRow, List.find?_eq_none]
    intro x hx
    rcases List.mem_filter.mp hx with ⟨_, hneg⟩
    simp only [Bool.not_eq_eq_eq_not, Bool.not_true] at hneg
    simp [hneg]
  · simp only [hc, if_false, if_neg hc]
    refine ⟨trivial, trivial, ?_⟩
    rw [findRow, List.find?_map, show (rowMatches gmailId userId ∘ fun x =>
      if rowMatches gmailId userId x then
        { x with lastError := some error, retryCount := r.retryCount + 1,
                 status := SyncStatus.pending, updatedAt := now }
      else x) = rowMatches gmailId userId from hupd]
    rw [show q.find? (rowMatches gmailId userId) = some r from hfind]
    simp [hmatch]

/-- Witness for C6: an item already failed 4 times is deleted by its 5th
failure and reported with retryCount 5. -/
theorem C6_markFailed_retry_then_drop_witness :
    (markSyncItemFailed
      [{ gmailId := "g1", userId := "u1", accountId := "a1",
         status := SyncStatus.syncing, retryCount := 4, lastError := none,
         createdAt := 0, updatedAt := 0 }] "g1" "u1" "boom" 9).2.2 = 4 + 1 ∧
    (if 4 + 1 ≥ 5 then
      (markSyncItemFailed
        [{ gmailId := "g1", userId := "u1", accountId := "a1",
           status := SyncStatus.syncing, retryCount := 4, lastError := none,
           createdAt := 0, updatedAt := 0 }] "g1" "u1" "boom" 9).2.1 = true ∧
      findRow (markSyncItemFailed
        [{ gmailId := "g1", userId := "u1", accountId := "a1",
           status := SyncStatus.syncing, retryCount := 4, lastError := none,
           createdAt := 0, updatedAt := 0 }] "g1" "u1" "boom" 9).1 "g1" "u1"
        = none
    else
      (markSyncItemFailed
        [{ gmailId := "g1", userId := "u1", accountId := "a1",
           status := SyncStatus.syncing, retryCount := 4, lastError := none,
           createdAt := 0, updatedAt := 0 }] "g1" "u1" "boom" 9).2.1 = false ∧
      findRow (markSyncItemFailed
        [{ gmailId := "g1", userId := "u1", accountId := "a1",
           status := SyncStatus.syncing, retryCount := 4, lastError := none,
           createdAt := 0, updatedAt := 0 }] "g1" "u1" "boom" 9).1 "g1" "u1"
        = some { gmailId := "g1", userId := "u1", accountId := "a1",
                 status := SyncStatus.pending, retryCount := 4 + 1,
                 lastError := some "boom", createdAt := 0,
                 updatedAt := 9 }) :=
  C6_markFailed_retry_then_drop
    [{ gmailId := "g1", userId := "u1", accountId := "a1",
       status := SyncStatus.syncing, retryCount := 4, lastError := none,
       createdAt := 0, updatedAt := 0 }] "g1" "u1" "boom" 9
    { gmailId := "g1", userId := "u1", accountId := "a1",
      status := SyncStatus.syncing, retryCount := 4, lastError := none,
      createdAt := 0, updatedAt := 0 } (by decide)

/-- Claim C7: resetStuckSyncingItems keeps the queue rows in place (same
length, position by position); a row of the owner in status syncing whose
updatedAt is strictly older than now minus five minutes is set back to
pending with updatedAt stamped to now; every other row (recent syncing rows
of the owner, rows in any other status, rows of other owners) is unchanged;
and the returned number counts exactly the reset rows. -/
theorem C7_resetStale_spec (q : List SyncQueueRow) (userId : String)
    (now : Int) :
    (resetStuckSyncingItems q userId now).1.length = q.length ∧
    (∀ i r, q.get? i = some r →
      ((r.userId = userId ∧ r.status = SyncStatus.syncing ∧
          r.updatedAt < now - 5 * 60 * 1000) →
        (resetStuckSyncingItems q userId now).1.get? i =
          some { r with status := SyncStatus.pending, updatedAt := now }) ∧
      (¬(r.userId = userId ∧ r.status = SyncStatus.syncing ∧
          r.updatedAt < now - 5 * 60 * 1000) →
        (resetStuckSyncingItems q userId now).1.get? i = some r)) ∧
    (resetStuckSyncingItems q userId now).2 =
      q.countP (stuckRow userId (now - 5 * 60 * 1000)) := by
  refine ⟨by simp [resetStuckSyncingItems], ?_, rfl⟩
  intro i r hr
  have hb : stuckRow userId (now - 5 * 60 * 1000) r = true ↔
      (r.userId = userId ∧ r.status = SyncStatus.syncing ∧
        r.updatedAt < now - 5 * 60 * 1000) := by
    simp [stuckRow, and_assoc]
  constructor
  · intro hc
    have hstuck : stuckRow userId (now - 300000) r = true := by
      simpa using hb.mpr hc
    simp only [resetStuckSyncingItems, List.get?_map, hr, Option.map_some']
    simp [hstuck]
  · intro hc
    have hf : stuckRow userId (now - 5 * 60 * 1000) r = false := by
      rcases Bool.eq_false_or_eq_true
        (stuckRow userId (now - 5 * 60 * 1000) r) with h | h
      · exact absurd (hb.mp h) hc
      · exact h
    have hf2 : stuckRow userId (now - 300000) r = false := by
      simpa using hf
    simp only [resetStuckSyncingItems, List.get?_map, hr, Option.map_some']
    simp [hf2]

/-- Witness for C7: one stale syncing row of the owner is reset to pending
and counted. -/
theorem C7_resetStale_spec_witness :
    (resetStuckSyncingItems
      [{ gmailId := "g1", userId := "u1", accountId := "a1",
         status := SyncStatus.syncing, retryCount := 0, lastError := none,
         createdAt := 0, updatedAt := 0 }] "u1" 600000).1.get? 0 =
      some { gmailId := "g1", userId := "u1", accountId := "a1",
             status := SyncStatus.pending, retryCount := 0,
             lastError := none, createdAt := 0, updatedAt := 600000 } :=
  ((C7_resetStale_spec
      [{ gmailId := "g1", userId := "u1", accountId := "a1",
         status := SyncStatus.syncing, retryCount := 0, lastError := none,
         createdAt := 0, updatedAt := 0 }] "u1" 600000).2.1 0
    { gmailId := "g1", userId := "u1", accountId := "a1",
      status := SyncStatus.syncing, retryCount := 0, lastError := none,
      createdAt := 0, updatedAt := 0 } (by rfl)).1 (by decide)

/-- Claim C10: calling markSyncItemFailed with a gmailId that has no row for
the given owner is a no-op: it returns deleted = false with retryCount 0 and
leaves every row of the queue unchanged. -/
theorem C10_markFailed_missing_noop (q : List SyncQueueRow)
    (gmailId userId error : String) (now : Int)
    (h : ∀ r ∈ q, ¬(r.gmailId = gmailId ∧ r.userId = userId)) :
    markSyncItemFailed q gmailId userId error now = (q, false, 0) := by
  have hnone : findRow q gmailId userId = none := by
    rw [findRow, List.find?_eq_none]
    intro x hx
    simp only [rowMatches, Bool.and_eq_true, beq_iff_eq, not_and]
    intro h1 h2
    exact h x hx ⟨h1, h2⟩
  unfold markSyncItemFailed
  rw [hnone]

/-- Witness for C10: a queue holding only a row of another owner is left
untouched. -/
theorem C10_markFailed_missing_noop_witness :
    markSyncItemFailed
      [{ gmailId := "g1", userId := "u2", accountId := "a1",
         status := SyncStatus.pending, retryCount := 2, lastError := none,
         createdAt := 0, updatedAt := 0 }] "g1" "u1" "boom" 7 =
      ([{ gmailId := "g1", userId := "u2", accountId := "a1",
          status := SyncStatus.pending, retryCount := 2, lastError := none,
          createdAt := 0, updatedAt := 0 }], false, 0) :=
  C10_markFailed_missing_noop
    [{ gmailId := "g1", userId := "u2", accountId := "a1",
       status := SyncStatus.pending, retryCount := 2, lastError := none,
       createdAt := 0, updatedAt := 0 }] "g1" "u1" "boom" 7 (by decide)

/-! ## Parallel classifier theorems -/

/-- Claim C8 fails as stated in one corner: the source guards the returned
id with JavaScript truthiness before the membership test, so an empty-string
categoryId is coerced to no match even when the empty string is among the
supplied category ids; the raw confidence 3/2 is then dropped to 0, not
clamped to 1. -/
theorem C8_empty_id_counterexample :
    ("" ∈ [""]) ∧
    validateClassification [""]
      { classifierId := some "", confidence := 3 / 2 } = (none, 0) ∧
    min 1 (max 0 ((3 : ℚ) / 2)) = 1 := by
  refine ⟨List.mem_singleton.mpr rfl, ?_, by norm_num⟩
  simp [validateClassification]

/-- Claim C8 (amended): for every service reply, if the returned categoryId
is a non-empty string among the supplied category ids, the outcome keeps
that id and clamps the raw confidence into [0, 1]; if the categoryId is
null, empty, or not among the supplied ids, the outcome is a null match
with confidence 0 regardless of the raw confidence; hence every outcome
confidence lies in [0, 1]. -/
theorem C8_validation_and_clamping (ids : List String)
    (reply : ClassificationReply) :
    (∀ cid, reply.classifierId = some cid → cid ≠ "" → cid ∈ ids →
      validateClassification ids reply =
        (some cid, min 1 (max 0 reply.confidence))) ∧
    (∀ cid, reply.classifierId = some cid → (cid = "" ∨ cid ∉ ids) →
      validateClassification ids reply = (none, 0)) ∧
    (reply.classifierId = none →
      validateClassification ids reply = (none, 0)) ∧
    0 ≤ (validateClassification ids reply).2 ∧
    (validateClassification ids reply).2 ≤ 1 := by
  refine ⟨?_, ?_, ?_, ?_, ?_⟩
  · intro cid hcid hne hmem
    simp [validateClassification, hcid, hne, hmem]
  · intro cid hcid hnot
    rcases hnot with h | h
    · simp [validateClassification, hcid, h]
    · simp [validateClassification, hcid, h]
  · intro hnone
    simp [validateClassification, hnone]
  · rcases hcid : reply.classifierId with _ | cid
    · simp [validateClassification, hcid]
    · by_cases hval : cid ≠ "" ∧ cid ∈ ids
      · simp only [validateClassification, hcid]
        rw [if_pos hval]
        exact le_min zero_le_one (le_max_left 0 _)
      · simp [validateClassification, hcid, hval]
  · rcases hcid : reply.classifierId with _ | cid
    · simp [validateClassification, hcid]
    · by_cases hval : cid ≠ "" ∧ cid ∈ ids
      · simp only [validateClassification, hcid]
        rw [if_pos hval]
        exact min_le_left 1 _
      · simp [validateClassification, hcid, hval]

/-- Witness for C8: a valid non-empty id keeps the id and clamps the raw
confidence 3/2 to 1, while an id outside the supplied set is dropped to a
null match with confidence 0. -/
theorem C8_validation_and_clamping_witness :
    validateClassification ["clf_a"]
      { classifierId := some "clf_a", confidence := 3 / 2 } =
      (some "clf_a", min 1 (max 0 ((3 : ℚ) / 2))) ∧
    validateClassification ["clf_a"]
      { classifierId := some "clf_b", confidence := 3 / 2 } = (none, 0) :=
  ⟨(C8_validation_and_clamping ["clf_a"]
      { classifierId := some "clf_a", confidence := 3 / 2 }).1 "clf_a" rfl
      (by decide) (by simp),
   (C8_validation_and_clamping ["clf_a"]
      { classifierId := some "clf_b", confidence := 3 / 2 }).2.1 "clf_b" rfl
      (Or.inr (by simp))⟩

theorem filterMap_get?_range {α β : Type} (g : α → β) :
    ∀ l : List α,
      (List.range l.length).filterMap (fun i => (l.get? i).map g) =
        l.map g := by
  intro l
  induction l with
  | nil => rfl
  | cons a l ih =>
    rw [List.length_cons, List.range_succ_eq_map, List.filterMap_cons]
    have h0 : ((a :: l).get? 0).map g = some (g a) := rfl
    rw [h0, List.filterMap_map]
    have hcomp : ((fun i => ((a :: l).get? i).map g) ∘ Nat.succ) =
        (fun i => (l.get? i).map g) := by
      funext i
      rfl
    rw [hcomp, ih, List.map_cons]

theorem classifyEmailRun_emailId (ids : List String) (eid : String)
    (sv : Nat → Except String ClassificationReply)
    (retryable : String → Bool) :
    (classifyEmailRun ids eid sv retryable).emailId = eid := by
  unfold classifyEmailRun classifyEmail
  rcases (withRetry sv retryable 3).2 with e | rep <;> rfl

/-- Claim C9: for every input batch with a non-empty classifier list and
every completion order of the workers, classifyEmailsParallel totalizes
every worker outcome (no remote-call or timeout error propagates): the
result list has exactly one outcome per input item (same length, and per
email id the same number of outcomes as inputs), and every item whose
guarded service call still fails after retry exhaustion contributes the
recovery outcome with a null classifier and confidence 0. -/
theorem C9_parallel_one_outcome_per_item (emails : List EmailInput)
    (classifiers : List Classifier)
    (svc : String → Nat → Except String ClassificationReply)
    (retryable : String → Bool) (order : List Nat)
    (hcl : classifiers ≠ [])
    (hord : order.Perm (List.range emails.length)) :
    (classifyEmailsParallel emails classifiers svc retryable order).length =
      emails.length ∧
    (∀ idv : String,
      ((classifyEmailsParallel emails classifiers svc retryable
          order).filter (fun res => res.emailId == idv)).length =
        (emails.filter (fun e => e.id == idv)).length) ∧
    (∀ e ∈ emails, ∀ err,
      (withRetry (svc e.id) retryable 3).2 = Except.error err →
      ({ emailId := e.id, classifierId := none, confidence := 0 } :
          ClassificationResult) ∈
        classifyEmailsParallel emails classifiers svc retryable order) := by
  have hne : classifiers.isEmpty = false := by
    simpa [List.isEmpty_iff] using hcl
  have hres : List.Perm
      (classifyEmailsParallel emails classifiers svc retryable order)
      (emails.map (fun e => classifyEmailRun
          (classifiers.map (fun c => c.id)) e.id (svc e.id) retryable)) := by
    by_cases he : emails.isEmpty = true
    · have hemp : emails = [] := List.isEmpty_iff.mp he
      subst hemp
      have hord0 : order = [] := by
        simpa using hord.eq_nil
      simp [classifyEmailsParallel, hord0]
    · unfold classifyEmailsParallel
      rw [if_neg (by simp [he, hne])]
      have hperm := hord.filterMap (fun i => (emails.get? i).map (fun e =>
        classifyEmailRun (classifiers.map (fun c => c.id)) e.id
          (svc e.id) retryable))
      rw [filterMap_get?_range _ emails] at hperm
      exact hperm
  refine ⟨?_, ?_, ?_⟩
  · rw [hres.length_eq, List.length_map]
  · intro idv
    rw [(hres.filter _).length_eq, List.filter_map, List.length_map]
    have hfun : ((fun res : ClassificationResult => res.emailId == idv) ∘
        fun e : EmailInput =>
          classifyEmailRun (classifiers.map (fun c => c.id)) e.id (svc e.id)
            retryable) = (fun e : EmailInput => e.id == idv) := by
      funext e
      simp [Function.comp, classifyEmailRun_emailId]
    rw [hfun]
  · intro e hmem err herr
    rw [hres.mem_iff]
    have hval : classifyEmailRun (classifiers.map (fun c => c.id)) e.id
        (svc e.id) retryable =
        { emailId := e.id, classifierId := none, confidence := 0 } := by
      unfold classifyEmailRun classifyEmail
      rw [herr]
    exact hval ▸ List.mem_map_of_mem _ hmem

/-- Witness for C9: a single email against one classifier with a service
that always fails on a non-retryable error yields exactly one outcome, the
local recovery outcome with a null match and confidence 0. -/
theorem C9_parallel_one_outcome_per_item_witness :
    (classifyEmailsParallel
      [{ id := "e1", subject := "s", from_ := "f", snippet := "sn",
         body := "b", date := 0 }]
      [{ id := "clf_a", name := "n", description := "d", labelName := "l",
         enabled := true, priority := 0 }]
      (fun _ _ => Except.error "network") (fun _ => false) [0]).length = 1 ∧
    ({ emailId := "e1", classifierId := none, confidence := 0 } :
        ClassificationResult) ∈
      classifyEmailsParallel
        [{ id := "e1", subject := "s", from_ := "f", snippet := "sn",
           body := "b", date := 0 }]
        [{ id := "clf_a", name := "n", description := "d", labelName := "l",
           enabled := true, priority := 0 }]
        (fun _ _ => Except.error "network") (fun _ => false) [0] :=
  ⟨(C9_parallel_one_outcome_per_item
      [{ id := "e1", subject := "s", from_ := "f", snippet := "sn",
         body := "b", date := 0 }]
      [{ id := "clf_a", name := "n", description := "d", labelName := "l",
         enabled := true, priority := 0 }]
      (fun _ _ => Except.error "network") (fun _ => false) [0]
      (by decide) (by decide)).1,
   (C9_parallel_one_outcome_per_item
      [{ id := "e1", subject := "s", from_ := "f", snippet := "sn",
         body := "b", date := 0 }]
      [{ id := "clf_a", name := "n", description := "d", labelName := "l",
         enabled := true, priority := 0 }]
      (fun _ _ => Except.error "network") (fun _ => false) [0]
      (by decide) (by decide)).2.2
      { id := "e1", subject := "s", from_ := "f", snippet := "sn",
        body := "b", date := 0 } (by simp) "network" (by rfl)⟩

end GmailAgent
